import Mathlib

/-!
Shallow embedding of the `AIFirewallFHE` Solidity contract
(`contract AIFirewallFHE is SepoliaConfig`).

Modelling conventions:
* Addresses, timestamps and `uint256` values are `Nat`.
* An `euint32` ciphertext is modelled by the plaintext value it encrypts
  (a `Nat` kept below `2^32` by the homomorphic operations); the FHE
  coprocessor is the opaque arithmetic capability the spec describes, so
  `FHE.add` is addition modulo `2^32`, `FHE.max`/`FHE.min` are `Nat.max`/
  `Nat.min`, `FHE.ge` is the boolean comparison and `FHE.select` the
  conditional choice.  `FHE.toBytes32` of a ciphertext handle is modelled
  by that plaintext value.
* `keccak256(abi.encode(cts, address(this)))` is modelled by an injective
  constructor (an ideal collision-free hash); `Bytes32.zero` models the
  default `bytes32(0)` of an unset storage slot.
* Solidity mappings are total functions returning the zero-initialised
  default struct for unset keys, exactly as EVM storage does.
* A reverting call is `Except.error e`: the EVM rolls back every write of
  the reverted call, so an error carries no post-state, which makes the
  "no partial mutation" part of the spec structural.
* `FHE.requestDecryption` returns an oracle-assigned request id; the id is
  passed to `closeBatch` as an argument chosen by the environment, and the
  issued request (id plus the ciphertext list, in order) is appended to the
  `requests` log so that "a decryption request is issued" is observable.
* `FHE.checkSignatures` is the external proof verifier; it is passed to
  `myCallback` as an abstract boolean-valued function `sigOk`.
-/

/-- The `error` declarations of the contract.  The contract itself declares
`NotOwner`, `NotProvider`, `Paused`, `CooldownActive`, `InvalidBatch`,
`BatchNotActive`, `ReplayDetected`, `StateMismatch`, `InvalidProof`.
`UnknownRequest` is an extra constructor carrying the spec's name for a
missing-context rejection: no code path of the contract produces it (the
Solidity source declares no such error), it exists in the model only so
that statements about it can be written down. -/
inductive Err where
  | NotOwner
  | NotProvider
  | Paused
  | CooldownActive
  | InvalidBatch
  | BatchNotActive
  | ReplayDetected
  | StateMismatch
  | InvalidProof
  | UnknownRequest
deriving DecidableEq, Repr

/-- Ideal model of a `bytes32` storage value: either the zero default of an
unset slot, or the keccak hash of `abi.encode(cts, address(this))` as
computed by `_hashCiphertexts` (injective, i.e. collision-free). -/
inductive Bytes32 where
  | zero
  | keccakEnc (cts : List Nat) (addr : Nat)
deriving DecidableEq, Repr

/-- `_hashCiphertexts(cts)` = `keccak256(abi.encode(cts, address(this)))`. -/
def hashCiphertexts (cts : List Nat) (selfAddr : Nat) : Bytes32 :=
  Bytes32.keccakEnc cts selfAddr

/-- `2^32`, the modulus of `euint32` arithmetic. -/
def UINT32_MOD : Nat := 4294967296

/-- `FHE.asEuint32` of a `uint32` literal. -/
def fheAsEuint32 (n : Nat) : Nat := n % UINT32_MOD

/-- `FHE.add` on `euint32`: wrapping addition modulo `2^32`. -/
def fheAdd (a b : Nat) : Nat := (a + b) % UINT32_MOD

/-- `FHE.max` on `euint32`. -/
def fheMax (a b : Nat) : Nat := Nat.max a b

/-- `FHE.min` on `euint32`. -/
def fheMin (a b : Nat) : Nat := Nat.min a b

/-- `FHE.ge` on `euint32`, producing the plaintext of the `ebool`. -/
def fheGe (a b : Nat) : Bool := decide (b ≤ a)

/-- `FHE.select` (`FHE.ite`) on an `ebool` and two `euint32`. -/
def fheIte (c : Bool) (a b : Nat) : Nat := if c then a else b

/-- `_initIfNeeded(val)`: `FHE.init` registers an uninitialized ciphertext
handle with the coprocessor; it never changes the encrypted value, so on
the plaintext model it is the identity. -/
def initIfNeeded (v : Nat) : Nat := v

/-- `struct Batch`. -/
structure Batch where
  id : Nat
  active : Bool
  transactionCount : Nat
  encryptedTotalValue : Nat
  encryptedMaxValue : Nat
  encryptedMinValue : Nat
  encryptedSuspiciousCount : Nat
deriving DecidableEq, Repr

/-- The zero-initialised `Batch` an unset mapping slot decodes to. -/
def emptyBatch : Batch :=
  { id := 0, active := false, transactionCount := 0
    encryptedTotalValue := 0, encryptedMaxValue := 0
    encryptedMinValue := 0, encryptedSuspiciousCount := 0 }

/-- `struct DecryptionContext`. -/
structure DecryptionContext where
  batchId : Nat
  stateHash : Bytes32
  processed : Bool
deriving DecidableEq, Repr

/-- The zero-initialised `DecryptionContext` of an unset mapping slot. -/
def emptyContext : DecryptionContext :=
  { batchId := 0, stateHash := Bytes32.zero, processed := false }

/-- Observable signals (the contract's `event` declarations). -/
inductive Event where
  | OwnershipTransferred (previousOwner newOwner : Nat)
  | ProviderAdded (provider : Nat)
  | ProviderRemoved (provider : Nat)
  | CooldownSecondsUpdated (previousCooldown newCooldown : Nat)
  | PausedContract (account : Nat)
  | UnpausedContract (account : Nat)
  | BatchOpened (batchId : Nat)
  | BatchClosed (batchId transactionCount : Nat)
  | TransactionAnalyzed (batchId transactionCount : Nat)
  | DecryptionRequested (requestId batchId : Nat)
  | DecryptionCompleted (requestId batchId totalValue maxValue minValue suspiciousCount : Nat)
deriving DecidableEq, Repr

/-- The contract's storage, plus the observable logs: `events` accumulates
emitted events, `requests` logs every `FHE.requestDecryption` call (request
id and ciphertext list, in order), and `selfAddr` is `address(this)`.
`lastDecryptionRequestTime` is declared by the contract but never read or
written by any function. -/
structure ContractState where
  owner : Nat
  isProvider : Nat → Bool
  lastSubmissionTime : Nat → Nat
  lastDecryptionRequestTime : Nat → Nat
  cooldownSeconds : Nat
  paused : Bool
  currentBatchId : Nat
  batches : Nat → Batch
  decryptionContexts : Nat → DecryptionContext
  selfAddr : Nat
  events : List Event
  requests : List (Nat × List Nat)

/-- The state right after the constructor ran with `msg.sender = deployer`:
`owner = msg.sender`, `cooldownSeconds = 30`, everything else at its
zero default, and the `OwnershipTransferred(address(0), msg.sender)` event
emitted. -/
def initState (deployer selfAddr : Nat) : ContractState :=
  { owner := deployer
    isProvider := fun _ => false
    lastSubmissionTime := fun _ => 0
    lastDecryptionRequestTime := fun _ => 0
    cooldownSeconds := 30
    paused := false
    currentBatchId := 0
    batches := fun _ => emptyBatch
    decryptionContexts := fun _ => emptyContext
    selfAddr := selfAddr
    events := [Event.OwnershipTransferred 0 deployer]
    requests := [] }

/-- `transferOwnership(newOwner)`: `onlyOwner`. -/
def transferOwnership (s : ContractState) (sender newOwner : Nat) :
    Except Err ContractState :=
  if sender ≠ s.owner then .error .NotOwner
  else .ok { s with
    owner := newOwner
    events := s.events ++ [Event.OwnershipTransferred s.owner newOwner] }

/-- `addProvider(provider)`: `onlyOwner`. -/
def addProvider (s : ContractState) (sender provider : Nat) :
    Except Err ContractState :=
  if sender ≠ s.owner then .error .NotOwner
  else .ok { s with
    isProvider := fun a => if a = provider then true else s.isProvider a
    events := s.events ++ [Event.ProviderAdded provider] }

/-- `removeProvider(provider)`: `onlyOwner`. -/
def removeProvider (s : ContractState) (sender provider : Nat) :
    Except Err ContractState :=
  if sender ≠ s.owner then .error .NotOwner
  else .ok { s with
    isProvider := fun a => if a = provider then false else s.isProvider a
    events := s.events ++ [Event.ProviderRemoved provider] }

/-- `setCooldownSeconds(newCooldownSeconds)`: `onlyOwner`. -/
def setCooldownSeconds (s : ContractState) (sender newCooldownSeconds : Nat) :
    Except Err ContractState :=
  if sender ≠ s.owner then .error .NotOwner
  else .ok { s with
    cooldownSeconds := newCooldownSeconds
    events := s.events ++ [Event.CooldownSecondsUpdated s.cooldownSeconds newCooldownSeconds] }

/-- `pause()`: `onlyOwner whenNotPaused`. -/
def pause (s : ContractState) (sender : Nat) : Except Err ContractState :=
  if sender ≠ s.owner then .error .NotOwner
  else if s.paused then .error .Paused
  else .ok { s with paused := true, events := s.events ++ [Event.PausedContract sender] }

/-- `unpause()`: `onlyOwner`, reverts `Paused()` when not paused. -/
def unpause (s : ContractState) (sender : Nat) : Except Err ContractState :=
  if sender ≠ s.owner then .error .NotOwner
  else if !s.paused then .error .Paused
  else .ok { s with paused := false, events := s.events ++ [Event.UnpausedContract sender] }

/-- `openBatch()`: `onlyOwner whenNotPaused`; reverts `BatchNotActive()`
when the current batch is active (this is the contract's error identifier
for the condition the spec names `BatchAlreadyOpen`), then increments
`currentBatchId` and initialises the new batch. -/
def openBatch (s : ContractState) (sender : Nat) : Except Err ContractState :=
  if sender ≠ s.owner then .error .NotOwner
  else if s.paused then .error .Paused
  else if (s.batches s.currentBatchId).active then .error .BatchNotActive
  else
    let newId := s.currentBatchId + 1
    let newBatch : Batch :=
      { id := newId, active := true, transactionCount := 0
        encryptedTotalValue := fheAsEuint32 0
        encryptedMaxValue := fheAsEuint32 0
        encryptedMinValue := fheAsEuint32 (2 ^ 32 - 1)
        encryptedSuspiciousCount := fheAsEuint32 0 }
    .ok { s with
          currentBatchId := newId
          batches := fun k => if k = newId then newBatch else s.batches k
          events := s.events ++ [Event.BatchOpened newId] }

/-- `closeBatch()`: `onlyOwner whenNotPaused`; reverts `InvalidBatch()`
when the current batch is not active (the spec's `NoActiveBatch`),
deactivates it, and when `transactionCount > 0` issues one decryption
request over the four accumulators in the order
`[totalValue, maxValue, minValue, suspiciousCount]` and records a
`DecryptionContext` under the oracle-assigned request id `reqId`. -/
def closeBatch (s : ContractState) (sender reqId : Nat) : Except Err ContractState :=
  if sender ≠ s.owner then .error .NotOwner
  else if s.paused then .error .Paused
  else
    let batch := s.batches s.currentBatchId
    if !batch.active then .error .InvalidBatch
    else
      let s1 : ContractState :=
        { s with
          batches := fun k => if k = s.currentBatchId
            then { batch with active := false } else s.batches k
          events := s.events ++ [Event.BatchClosed s.currentBatchId batch.transactionCount] }
      if batch.transactionCount > 0 then
        let cts : List Nat :=
          [batch.encryptedTotalValue, batch.encryptedMaxValue,
           batch.encryptedMinValue, batch.encryptedSuspiciousCount]
        let stateHash := hashCiphertexts cts s.selfAddr
        .ok { s1 with
              requests := s1.requests ++ [(reqId, cts)]
              decryptionContexts := fun k => if k = reqId
                then { batchId := s.currentBatchId, stateHash := stateHash, processed := false }
                else s.decryptionContexts k
              events := s1.events ++ [Event.DecryptionRequested reqId s.currentBatchId] }
      else .ok s1

/-- `analyzeTransaction(encryptedValue, encryptedRecipientScore,
encryptedThreshold)`: `onlyProvider whenNotPaused`, cooldown check against
`block.timestamp` (the `now` argument), then folds the submission into the
active batch's accumulators. -/
def analyzeTransaction (s : ContractState)
    (sender now encryptedValue encryptedRecipientScore encryptedThreshold : Nat) :
    Except Err ContractState :=
  if !s.isProvider sender then .error .NotProvider
  else if s.paused then .error .Paused
  else if now < s.lastSubmissionTime sender + s.cooldownSeconds then .error .CooldownActive
  else
    let s1 : ContractState :=
      { s with lastSubmissionTime := fun a => if a = sender then now else s.lastSubmissionTime a }
    let batch := s1.batches s1.currentBatchId
    if !batch.active then .error .InvalidBatch
    else
      let encryptedValue := initIfNeeded encryptedValue
      let encryptedRecipientScore := initIfNeeded encryptedRecipientScore
      let encryptedThreshold := initIfNeeded encryptedThreshold
      let isSuspicious := fheGe encryptedRecipientScore encryptedThreshold
      let newBatch : Batch :=
        { batch with
          encryptedTotalValue := fheAdd (initIfNeeded batch.encryptedTotalValue) encryptedValue
          encryptedMaxValue := fheMax (initIfNeeded batch.encryptedMaxValue) encryptedValue
          encryptedMinValue := fheMin (initIfNeeded batch.encryptedMinValue) encryptedValue
          encryptedSuspiciousCount :=
            fheAdd (initIfNeeded batch.encryptedSuspiciousCount)
              (fheIte isSuspicious (fheAsEuint32 1) (fheAsEuint32 0))
          transactionCount := batch.transactionCount + 1 }
      .ok { s1 with
            batches := fun k => if k = s1.currentBatchId then newBatch else s1.batches k
            events := s1.events ++
              [Event.TransactionAnalyzed s1.currentBatchId newBatch.transactionCount] }

/-- `myCallback(requestId, cleartexts, proof)`: `public`, no modifier —
neither `msg.sender` nor `paused` is inspected.  `sigOk` models
`FHE.checkSignatures`; `cleartexts` is the abi-encoded payload, word `j`
(the 32-byte slice at offset `32*j`) modelled as `cleartexts.getD j 0`. -/
def myCallback (sigOk : Nat → List Nat → List Nat → Bool) (s : ContractState)
    (sender requestId : Nat) (cleartexts proof : List Nat) :
    Except Err ContractState :=
  if (s.decryptionContexts requestId).processed then .error .ReplayDetected
  else
    let batch := s.batches (s.decryptionContexts requestId).batchId
    if !batch.active then .error .InvalidBatch
    else
      let cts : List Nat :=
        [batch.encryptedTotalValue, batch.encryptedMaxValue,
         batch.encryptedMinValue, batch.encryptedSuspiciousCount]
      let currentHash := hashCiphertexts cts s.selfAddr
      if currentHash ≠ (s.decryptionContexts requestId).stateHash then .error .StateMismatch
      else if !sigOk requestId cleartexts proof then .error .InvalidProof
      else
        let totalValue := cleartexts.getD 0 0
        let maxValue := cleartexts.getD 1 0
        let minValue := cleartexts.getD 2 0
        let suspiciousCount := cleartexts.getD 3 0
        .ok { s with
              decryptionContexts := fun k => if k = requestId
                then { s.decryptionContexts requestId with processed := true }
                else s.decryptionContexts k
              events := s.events ++
                [Event.DecryptionCompleted requestId (s.decryptionContexts requestId).batchId
                  totalValue maxValue minValue suspiciousCount] }

/-- One external call to the contract, with its environment-chosen inputs
(`msg.sender`, `block.timestamp` for the cooldown check, the oracle-assigned
request id for `closeBatch`, the oracle message for `myCallback`). -/
inductive Call where
  | transferOwnership (sender newOwner : Nat)
  | addProvider (sender provider : Nat)
  | removeProvider (sender provider : Nat)
  | setCooldownSeconds (sender newCooldownSeconds : Nat)
  | pause (sender : Nat)
  | unpause (sender : Nat)
  | openBatch (sender : Nat)
  | closeBatch (sender reqId : Nat)
  | analyzeTransaction (sender now value recipientScore threshold : Nat)
  | myCallback (sender requestId : Nat) (cleartexts proof : List Nat)
deriving Repr

/-- Dispatch a call to the contract function it names. -/
def stepCall (sigOk : Nat → List Nat → List Nat → Bool) (s : ContractState) :
    Call → Except Err ContractState
  | .transferOwnership sender newOwner => transferOwnership s sender newOwner
  | .addProvider sender provider => addProvider s sender provider
  | .removeProvider sender provider => removeProvider s sender provider
  | .setCooldownSeconds sender n => setCooldownSeconds s sender n
  | .pause sender => pause s sender
  | .unpause sender => unpause s sender
  | .openBatch sender => openBatch s sender
  | .closeBatch sender reqId => closeBatch s sender reqId
  | .analyzeTransaction sender now v r t => analyzeTransaction s sender now v r t
  | .myCallback sender rid cts proof => myCallback sigOk s sender rid cts proof

/-- Run a list of calls in sequence; a revert anywhere aborts the run. -/
def runCalls (sigOk : Nat → List Nat → List Nat → Bool) :
    ContractState → List Call → Except Err ContractState
  | s, [] => .ok s
  | s, c :: cs => match stepCall sigOk s c with
    | .ok s1 => runCalls sigOk s1 cs
    | .error e => .error e

/-- States reachable from deployment by successful external calls. -/
inductive Reachable (sigOk : Nat → List Nat → List Nat → Bool)
    (deployer selfAddr : Nat) : ContractState → Prop where
  | init : Reachable sigOk deployer selfAddr (initState deployer selfAddr)
  | step {s s1 : ContractState} (c : Call) :
      Reachable sigOk deployer selfAddr s → stepCall sigOk s c = .ok s1 →
      Reachable sigOk deployer selfAddr s1

/-- A proof verifier that accepts every oracle message (a legitimate,
well-behaved oracle). -/
def sigAccept : Nat → List Nat → List Nat → Bool := fun _ _ _ => true

/-- Extract the post-state of a successful run (default otherwise). -/
def okOr (d : ContractState) : Except Err ContractState → ContractState
  | .ok s => s
  | .error _ => d

/-- A concrete honest history: the deployer (address 1, contract address 2)
registers provider 5, opens batch 1, the provider folds in one submission
(value 10, recipientScore 7, threshold 7, at time 100), and the owner
closes the batch; the oracle assigns request id 7. -/
def demoCalls : List Call :=
  [Call.addProvider 1 5, Call.openBatch 1,
   Call.analyzeTransaction 5 100 10 7 7, Call.closeBatch 1 7]

/-- The state reached by `demoCalls`: batch 1 is closed with accumulators
`[10, 10, 10, 1]` and a decryption context is recorded under request id 7
with `processed = false`. -/
def demoState : ContractState :=
  okOr (initState 1 2) (runCalls sigAccept (initState 1 2) demoCalls)

/-- C1: the claim says a callback whose context refers to a still-active
batch fails, and a legitimate callback arriving after `closeBatch` (which
set `active = false`) passes the batch-state check.  The code does the
opposite: `myCallback` reverts `InvalidBatch()` exactly when the owning
batch is NOT active (`if (!batch.active) revert InvalidBatch();`), even
though its own comment says "Batch should have been closed".  This theorem
runs the honest history `demoCalls` and shows the legitimate oracle
callback for request 7 — correct cleartexts, accepted proof — is rejected
with `InvalidBatch`, so on this code no recorded decryption request can
ever be completed. -/
theorem c1_legitimate_post_close_callback_rejected :
    runCalls sigAccept (initState 1 2) demoCalls = .ok demoState ∧
    demoState.decryptionContexts 7 =
      { batchId := 1, stateHash := hashCiphertexts [10, 10, 10, 1] 2, processed := false } ∧
    (demoState.batches 1).active = false ∧
    myCallback sigAccept demoState 9 7 [10, 10, 10, 1] [0] = .error Err.InvalidBatch :=
  ⟨rfl, rfl, rfl, rfl⟩

/-- C2 (counterexample): a callback for the never-recorded request handle 5
is rejected with `InvalidBatch`, not with the spec's `UnknownRequest`: the
contract performs no absent-lookup check at all (and declares no
`UnknownRequest` error); the zero-initialised default context sends the
lookup to batch 0, which is never active, so the batch-state check fires. -/
theorem c2_unknown_handle_fails_with_invalidBatch_not_unknownRequest :
    (initState 1 2).decryptionContexts 5 = emptyContext ∧
    myCallback sigAccept (initState 1 2) 9 5 [1, 2, 3, 4] [0] = .error Err.InvalidBatch ∧
    Err.InvalidBatch ≠ Err.UnknownRequest :=
  ⟨rfl, rfl, by decide⟩

/-- Helper: every contract entry point preserves "batch 0 is not active".
Batch ids are allocated starting from `currentBatchId + 1 ≥ 1`, and the
only writes to an existing batch either deactivate it (`closeBatch`) or
keep its `active` flag (`analyzeTransaction`), so slot 0 stays inactive. -/
theorem stepCall_preserves_batchZero_inactive
    (sigOk : Nat → List Nat → List Nat → Bool) (s : ContractState) (c : Call)
    (s1 : ContractState) (h0 : (s.batches 0).active = false)
    (hstep : stepCall sigOk s c = .ok s1) : (s1.batches 0).active = false := by
  cases c <;>
    simp only [stepCall, transferOwnership, addProvider, removeProvider,
      setCooldownSeconds, pause, unpause, openBatch, closeBatch,
      analyzeTransaction, myCallback] at hstep <;>
    (repeat' split at hstep) <;>
    (try exact Except.noConfusion hstep) <;>
    (injection hstep with h) <;> subst h <;> simp_all <;>
    (split <;> simp_all)

/-- Helper: in every reachable state, the zero slot of the batch mapping is
the (inactive) default: no batch id 0 is ever allocated. -/
theorem reachable_batchZero_inactive
    {sigOk : Nat → List Nat → List Nat → Bool} {deployer selfAddr : Nat}
    {s : ContractState} (h : Reachable sigOk deployer selfAddr s) :
    (s.batches 0).active = false := by
  induction h with
  | init => rfl
  | step c hr hstep ih => exact stepCall_preserves_batchZero_inactive _ _ c _ ih hstep

/-- C2 (amended): in every reachable state, a callback for a request handle
for which no decryption context was ever recorded (its slot still holds the
zero-initialised default) fails — with `InvalidBatch`, via the batch-state
check applied to the never-active batch 0 — and, the call reverting, with
no state mutation.  There is no dedicated absent-lookup check and no
`UnknownRequest` error in the contract. -/
theorem c2_unknown_handle_rejected
    (sigOk : Nat → List Nat → List Nat → Bool) (deployer selfAddr : Nat)
    (s : ContractState) (sender requestId : Nat) (cleartexts proof : List Nat)
    (hreach : Reachable sigOk deployer selfAddr s)
    (hnone : s.decryptionContexts requestId = emptyContext) :
    myCallback sigOk s sender requestId cleartexts proof = .error Err.InvalidBatch := by
  have h0 := reachable_batchZero_inactive hreach
  simp [myCallback, hnone, emptyContext, h0]

/-- Witness for C2's amended theorem at a concrete input: the deployment
state is reachable, request handle 5 was never recorded there, and the
callback is rejected with `InvalidBatch`. -/
theorem c2_witness :
    Reachable sigAccept 1 2 (initState 1 2) ∧
    (initState 1 2).decryptionContexts 5 = emptyContext ∧
    myCallback sigAccept (initState 1 2) 9 5 [1, 2, 3, 4] [0] = .error Err.InvalidBatch :=
  ⟨Reachable.init, rfl,
    c2_unknown_handle_rejected sigAccept 1 2 (initState 1 2) 9 5 [1, 2, 3, 4] [0]
      Reachable.init rfl⟩

/-- `demoState` with batch 1's total-value accumulator overwritten after
close but before the callback — the spec's simulated fault injection. -/
def tamperedState : ContractState :=
  { demoState with
    batches := fun k => if k = 1
      then { demoState.batches 1 with encryptedTotalValue := 999 }
      else demoState.batches k }

/-- C3: the claim says that when a recorded context's accumulators were
mutated between request and callback (so the recomputed domain-separated
hash differs from the stored commitment) the callback fails with
`StateMismatch`.  On this code it cannot: the inverted batch-state check
(`if (!batch.active) revert InvalidBatch()`) fires first on every closed
batch, so even with a tampered accumulator — recomputed hash provably
different from the stored commitment — the callback reverts with
`InvalidBatch`, never reaching the commitment comparison. -/
theorem c3_tampered_accumulators_rejected_before_commitment_check :
    (tamperedState.decryptionContexts 7).stateHash =
      hashCiphertexts [10, 10, 10, 1] 2 ∧
    hashCiphertexts
      [(tamperedState.batches 1).encryptedTotalValue,
       (tamperedState.batches 1).encryptedMaxValue,
       (tamperedState.batches 1).encryptedMinValue,
       (tamperedState.batches 1).encryptedSuspiciousCount] tamperedState.selfAddr ≠
      (tamperedState.decryptionContexts 7).stateHash ∧
    myCallback sigAccept tamperedState 9 7 [10, 10, 10, 1] [0] = .error Err.InvalidBatch ∧
    Err.InvalidBatch ≠ Err.StateMismatch :=
  ⟨rfl, by decide, rfl, by decide⟩

/-- Environment guarantee on `FHE.requestDecryption`: the oracle assigns a
fresh request handle, i.e. one whose context slot is still the
zero-initialised default (spec: "request handle (oracle-assigned,
unique)").  Only `closeBatch` consumes a handle. -/
def freshRequestId (s : ContractState) : Call → Prop
  | .closeBatch _ reqId => s.decryptionContexts reqId = emptyContext
  | _ => True

/-- C4: the `processed` flag of a recorded context transitions from `false`
to `true` at most once.  (1) A callback for a handle whose context is
already processed fails with `ReplayDetected` (and, the call reverting,
mutates nothing); (2) a callback that succeeds found `processed = false`
and leaves `processed = true` for that handle; (3) no contract operation
ever resets a `true` flag to `false` (for `closeBatch` this uses the
oracle's freshness guarantee on the assigned handle). -/
theorem c4_processed_monotone_replay_protected :
    (∀ (sigOk : Nat → List Nat → List Nat → Bool) (s : ContractState)
        (sender requestId : Nat) (cleartexts proof : List Nat),
      (s.decryptionContexts requestId).processed = true →
      myCallback sigOk s sender requestId cleartexts proof = .error Err.ReplayDetected) ∧
    (∀ (sigOk : Nat → List Nat → List Nat → Bool) (s : ContractState)
        (sender requestId : Nat) (cleartexts proof : List Nat) (s1 : ContractState),
      myCallback sigOk s sender requestId cleartexts proof = .ok s1 →
      (s.decryptionContexts requestId).processed = false ∧
      (s1.decryptionContexts requestId).processed = true) ∧
    (∀ (sigOk : Nat → List Nat → List Nat → Bool) (s : ContractState)
        (c : Call) (s1 : ContractState),
      freshRequestId s c → stepCall sigOk s c = .ok s1 →
      ∀ requestId, (s.decryptionContexts requestId).processed = true →
        (s1.decryptionContexts requestId).processed = true) := by
  refine ⟨?_, ?_, ?_⟩
  · intro sigOk s sender requestId cleartexts proof hp
    simp [myCallback, hp]
  · intro sigOk s sender requestId cleartexts proof s1 h
    simp only [myCallback] at h
    repeat' split at h
    all_goals try exact Except.noConfusion h
    injection h with h1
    subst h1
    refine ⟨by simp_all, by simp⟩
  · intro sigOk s c s1 hfresh hstep requestId hp
    cases c <;>
      simp only [stepCall, transferOwnership, addProvider, removeProvider,
        setCooldownSeconds, pause, unpause, openBatch, closeBatch,
        analyzeTransaction, myCallback] at hstep <;>
      (repeat' split at hstep) <;>
      (try exact Except.noConfusion hstep) <;>
      (injection hstep with h) <;> subst h <;>
      simp_all [freshRequestId, emptyContext] <;> (split <;> simp_all [emptyContext])

/-- A concrete state whose context 3 is already processed, for the C4
witness (batch 1 recorded as its owning batch). -/
def processedState : ContractState :=
  { initState 1 2 with
    decryptionContexts := fun k => if k = 3
      then { batchId := 1, stateHash := hashCiphertexts [10, 10, 10, 1] 2, processed := true }
      else emptyContext }

/-- Witness for C4 at a concrete input: context 3 of `processedState` is
processed, so the callback replay for handle 3 fails with
`ReplayDetected`. -/
theorem c4_witness :
    (processedState.decryptionContexts 3).processed = true ∧
    myCallback sigAccept processedState 9 3 [10, 10, 10, 1] [0] =
      .error Err.ReplayDetected :=
  ⟨rfl, c4_processed_monotone_replay_protected.1 sigAccept processedState 9 3
    [10, 10, 10, 1] [0] rfl⟩

/-- C5: an accepted `analyzeTransaction` call (caller is a registered
provider, system not paused, cooldown elapsed, current batch active)
updates the current batch exactly as the spec's fold: the encrypted sum
becomes `(sum + value) % 2^32` (homomorphic 32-bit add), the max becomes
`max(max, value)`, the min becomes `min(min, value)`, the suspicious count
grows by `select(ge(recipientScore, threshold), 1, 0)` (mod `2^32`), the
transaction count grows by exactly 1, the caller's last-submission time is
set to `now`, and a `TransactionAnalyzed` event carrying the new count is
emitted; nothing else changes. -/
theorem c5_analyze_transaction_updates
    (s : ContractState) (sender now value recipientScore threshold : Nat)
    (hprov : s.isProvider sender = true)
    (hpaused : s.paused = false)
    (hcool : ¬ now < s.lastSubmissionTime sender + s.cooldownSeconds)
    (hactive : (s.batches s.currentBatchId).active = true) :
    analyzeTransaction s sender now value recipientScore threshold =
      .ok { s with
            lastSubmissionTime := fun a => if a = sender then now else s.lastSubmissionTime a
            batches := fun k => if k = s.currentBatchId
              then { s.batches s.currentBatchId with
                     encryptedTotalValue :=
                       ((s.batches s.currentBatchId).encryptedTotalValue + value) % 2 ^ 32
                     encryptedMaxValue :=
                       Nat.max (s.batches s.currentBatchId).encryptedMaxValue value
                     encryptedMinValue :=
                       Nat.min (s.batches s.currentBatchId).encryptedMinValue value
                     encryptedSuspiciousCount :=
                       ((s.batches s.currentBatchId).encryptedSuspiciousCount +
                         if threshold ≤ recipientScore then 1 else 0) % 2 ^ 32
                     transactionCount := (s.batches s.currentBatchId).transactionCount + 1 }
              else s.batches k
            events := s.events ++
              [Event.TransactionAnalyzed s.currentBatchId
                ((s.batches s.currentBatchId).transactionCount + 1)] } := by
  simp only [analyzeTransaction, hprov, hpaused, hactive, if_neg hcool, Bool.not_true,
    Bool.false_eq_true, if_false, initIfNeeded, fheAdd, fheMax, fheMin, fheGe, fheIte,
    fheAsEuint32, UINT32_MOD, hashCiphertexts]
  norm_num

/-- A concrete state for witnesses: provider 5 registered, batch 1 open and
untouched (fresh accumulators), owner 1, contract address 2. -/
def sampleOpenState : ContractState :=
  { initState 1 2 with
    isProvider := fun a => if a = 5 then true else false
    currentBatchId := 1
    batches := fun k => if k = 1
      then { id := 1, active := true, transactionCount := 0
             encryptedTotalValue := 0, encryptedMaxValue := 0
             encryptedMinValue := 4294967295, encryptedSuspiciousCount := 0 }
      else emptyBatch }

/-- Witness for C5 at a concrete input: provider 5 submits
`(value, recipientScore, threshold) = (10, 7, 7)` at time 100 on
`sampleOpenState`; every guard hypothesis holds and the batch is updated
exactly as stated (`7 ≥ 7`, so the suspicious count becomes 1). -/
theorem c5_witness :
    sampleOpenState.isProvider 5 = true ∧
    sampleOpenState.paused = false ∧
    ¬ 100 < sampleOpenState.lastSubmissionTime 5 + sampleOpenState.cooldownSeconds ∧
    (sampleOpenState.batches sampleOpenState.currentBatchId).active = true ∧
    analyzeTransaction sampleOpenState 5 100 10 7 7 =
      .ok { sampleOpenState with
            lastSubmissionTime := fun a => if a = 5 then 100 else sampleOpenState.lastSubmissionTime a
            batches := fun k => if k = sampleOpenState.currentBatchId
              then { sampleOpenState.batches sampleOpenState.currentBatchId with
                     encryptedTotalValue :=
                       ((sampleOpenState.batches sampleOpenState.currentBatchId).encryptedTotalValue + 10) % 2 ^ 32
                     encryptedMaxValue :=
                       Nat.max (sampleOpenState.batches sampleOpenState.currentBatchId).encryptedMaxValue 10
                     encryptedMinValue :=
                       Nat.min (sampleOpenState.batches sampleOpenState.currentBatchId).encryptedMinValue 10
                     encryptedSuspiciousCount :=
                       ((sampleOpenState.batches sampleOpenState.currentBatchId).encryptedSuspiciousCount +
                         if 7 ≤ 7 then 1 else 0) % 2 ^ 32
                     transactionCount := (sampleOpenState.batches sampleOpenState.currentBatchId).transactionCount + 1 }
              else sampleOpenState.batches k
            events := sampleOpenState.events ++
              [Event.TransactionAnalyzed sampleOpenState.currentBatchId
                ((sampleOpenState.batches sampleOpenState.currentBatchId).transactionCount + 1)] } :=
  ⟨rfl, rfl, by decide, rfl,
    c5_analyze_transaction_updates sampleOpenState 5 100 10 7 7 rfl rfl (by decide) rfl⟩

/-- C6: closing an active batch (owner, not paused) behaves by cases on the
transaction count.  Count 0: the batch is deactivated and stays retrievable
with count 0, no decryption request is issued and no context is recorded
(the request log and the context table are untouched).  Count > 0: exactly
one decryption request is issued, over the four accumulators in the fixed
order `[totalValue, maxValue, minValue, suspiciousCount]`, and one context
with `processed = false`, the owning batch id and the commitment over those
ciphertexts plus `address(this)` is recorded under the oracle-returned
handle `reqId`. -/
theorem c6_close_batch_zero_vs_positive
    (s : ContractState) (sender reqId : Nat)
    (hown : sender = s.owner) (hpaused : s.paused = false)
    (hactive : (s.batches s.currentBatchId).active = true) :
    ((s.batches s.currentBatchId).transactionCount = 0 →
      closeBatch s sender reqId = .ok { s with
        batches := fun k => if k = s.currentBatchId
          then { s.batches s.currentBatchId with active := false } else s.batches k
        events := s.events ++ [Event.BatchClosed s.currentBatchId 0] }) ∧
    (0 < (s.batches s.currentBatchId).transactionCount →
      closeBatch s sender reqId = .ok { s with
        batches := fun k => if k = s.currentBatchId
          then { s.batches s.currentBatchId with active := false } else s.batches k
        decryptionContexts := fun k => if k = reqId
          then { batchId := s.currentBatchId
                 stateHash := hashCiphertexts
                   [(s.batches s.currentBatchId).encryptedTotalValue,
                    (s.batches s.currentBatchId).encryptedMaxValue,
                    (s.batches s.currentBatchId).encryptedMinValue,
                    (s.batches s.currentBatchId).encryptedSuspiciousCount] s.selfAddr
                 processed := false }
          else s.decryptionContexts k
        requests := s.requests ++
          [(reqId, [(s.batches s.currentBatchId).encryptedTotalValue,
                    (s.batches s.currentBatchId).encryptedMaxValue,
                    (s.batches s.currentBatchId).encryptedMinValue,
                    (s.batches s.currentBatchId).encryptedSuspiciousCount])]
        events := s.events ++
          [Event.BatchClosed s.currentBatchId (s.batches s.currentBatchId).transactionCount,
           Event.DecryptionRequested reqId s.currentBatchId] }) := by
  constructor
  · intro hzero
    simp [closeBatch, hown, hpaused, hactive, hzero]
  · intro hpos
    simp [closeBatch, hown, hpaused, hactive, hpos, Nat.pos_iff_ne_zero.mp hpos,
      List.append_assoc]

/-- Witness for C6 at a concrete input: closing batch 1 of
`sampleOpenState` (count 0, owner 1, request id 7) deactivates the batch,
records nothing and issues nothing. -/
theorem c6_witness :
    (1 : Nat) = sampleOpenState.owner ∧
    sampleOpenState.paused = false ∧
    (sampleOpenState.batches sampleOpenState.currentBatchId).active = true ∧
    (sampleOpenState.batches sampleOpenState.currentBatchId).transactionCount = 0 ∧
    closeBatch sampleOpenState 1 7 = .ok { sampleOpenState with
      batches := fun k => if k = sampleOpenState.currentBatchId
        then { sampleOpenState.batches sampleOpenState.currentBatchId with active := false }
        else sampleOpenState.batches k
      events := sampleOpenState.events ++ [Event.BatchClosed sampleOpenState.currentBatchId 0] } :=
  ⟨rfl, rfl, rfl, rfl,
    (c6_close_batch_zero_vs_positive sampleOpenState 1 7 rfl rfl rfl).1 rfl⟩

/-- C7: with the authorisation and pause gates passed (owner caller, not
paused), `openBatch` while the current batch is active reverts with the
contract's `BatchNotActive()` error — the condition the spec names
`BatchAlreadyOpen` — and `closeBatch` while no batch is active reverts with
the contract's `InvalidBatch()` error — the condition the spec names
`NoActiveBatch`; a revert rolls back, so no state changes in either
case. -/
theorem c7_lifecycle_guards
    (s : ContractState) (sender : Nat)
    (hown : sender = s.owner) (hpaused : s.paused = false) :
    ((s.batches s.currentBatchId).active = true →
      openBatch s sender = .error Err.BatchNotActive) ∧
    ((s.batches s.currentBatchId).active = false →
      ∀ reqId, closeBatch s sender reqId = .error Err.InvalidBatch) := by
  constructor
  · intro h
    simp [openBatch, hown, hpaused, h]
  · intro h reqId
    simp [closeBatch, hown, hpaused, h]

/-- Witness for C7 at a concrete input: on `sampleOpenState` (batch 1
active) a second `openBatch` by the owner fails with `BatchNotActive`, and
on the deployment state (no batch active) `closeBatch` by the owner fails
with `InvalidBatch`.  The two parts are applied at their respective
states. -/
theorem c7_witness :
    ((1 : Nat) = sampleOpenState.owner ∧ sampleOpenState.paused = false ∧
      (sampleOpenState.batches sampleOpenState.currentBatchId).active = true ∧
      openBatch sampleOpenState 1 = .error Err.BatchNotActive) ∧
    ((1 : Nat) = (initState 1 2).owner ∧ (initState 1 2).paused = false ∧
      ((initState 1 2).batches (initState 1 2).currentBatchId).active = false ∧
      closeBatch (initState 1 2) 1 7 = .error Err.InvalidBatch) :=
  ⟨⟨rfl, rfl, rfl, (c7_lifecycle_guards sampleOpenState 1 rfl rfl).1 rfl⟩,
   ⟨rfl, rfl, rfl, (c7_lifecycle_guards (initState 1 2) 1 rfl rfl).2 rfl 7⟩⟩

/-- C8: a successful `openBatch` (owner, not paused, no active current
batch) allocates the identifier `currentBatchId + 1` — exactly one greater
than the previous one — and initialises the new batch with `active = true`,
`count = 0` and the accumulators at their identity values: sum 0, max 0
(the minimum representable `uint32`), min `2^32 - 1` (the maximum
representable), suspicious count 0; and from the deployment state
(`currentBatchId = 0`) the first allocated identifier is 1. -/
theorem c8_open_batch_allocation :
    (∀ (s : ContractState) (sender : Nat),
      sender = s.owner → s.paused = false →
      (s.batches s.currentBatchId).active = false →
      openBatch s sender = .ok { s with
        currentBatchId := s.currentBatchId + 1
        batches := fun k => if k = s.currentBatchId + 1
          then { id := s.currentBatchId + 1, active := true, transactionCount := 0
                 encryptedTotalValue := 0, encryptedMaxValue := 0
                 encryptedMinValue := 2 ^ 32 - 1, encryptedSuspiciousCount := 0 }
          else s.batches k
        events := s.events ++ [Event.BatchOpened (s.currentBatchId + 1)] }) ∧
    (∀ (deployer selfAddr : Nat) (s1 : ContractState),
      openBatch (initState deployer selfAddr) deployer = .ok s1 →
      s1.currentBatchId = 1) := by
  constructor
  · intro s sender hown hpaused hinactive
    simp [openBatch, hown, hpaused, hinactive, fheAsEuint32, UINT32_MOD]
  · intro deployer selfAddr s1 h
    simp only [openBatch, initState, emptyBatch] at h
    repeat' split at h
    all_goals try exact Except.noConfusion h
    injection h with h1
    subst h1
    rfl

/-- Witness for C8 at a concrete input: opening on the deployment state
(owner 1, contract address 2) allocates batch id `0 + 1` with the identity
accumulators, and part two instantiated there gives `currentBatchId = 1`. -/
theorem c8_witness :
    ((1 : Nat) = (initState 1 2).owner ∧ (initState 1 2).paused = false ∧
      ((initState 1 2).batches (initState 1 2).currentBatchId).active = false ∧
      openBatch (initState 1 2) 1 = .ok { initState 1 2 with
        currentBatchId := (initState 1 2).currentBatchId + 1
        batches := fun k => if k = (initState 1 2).currentBatchId + 1
          then { id := (initState 1 2).currentBatchId + 1, active := true, transactionCount := 0
                 encryptedTotalValue := 0, encryptedMaxValue := 0
                 encryptedMinValue := 2 ^ 32 - 1, encryptedSuspiciousCount := 0 }
          else (initState 1 2).batches k
        events := (initState 1 2).events ++ [Event.BatchOpened ((initState 1 2).currentBatchId + 1)] }) ∧
    (∀ s1, openBatch (initState 1 2) 1 = .ok s1 → s1.currentBatchId = 1) :=
  ⟨⟨rfl, rfl, rfl, c8_open_batch_allocation.1 (initState 1 2) 1 rfl rfl rfl⟩,
    fun s1 h => c8_open_batch_allocation.2 1 2 s1 h⟩

/-- C9: for a registered provider (system not paused), a submission whose
timestamp satisfies `now < lastSubmissionTime + cooldownSeconds` — elapsed
time strictly below the cooldown — reverts with `CooldownActive` (so no
state changes); once `now ≥ lastSubmissionTime + cooldownSeconds` the call
is never rejected by the cooldown check (whatever else it may fail on);
and a successful submission records `lastSubmissionTime = now`, which is
what makes a second call inside the window fail and a third call after the
window pass the check again. -/
theorem c9_cooldown_enforcement :
    (∀ (s : ContractState) (sender now value recipientScore threshold : Nat),
      s.isProvider sender = true → s.paused = false →
      now < s.lastSubmissionTime sender + s.cooldownSeconds →
      analyzeTransaction s sender now value recipientScore threshold =
        .error Err.CooldownActive) ∧
    (∀ (s : ContractState) (sender now value recipientScore threshold : Nat),
      ¬ now < s.lastSubmissionTime sender + s.cooldownSeconds →
      analyzeTransaction s sender now value recipientScore threshold ≠
        .error Err.CooldownActive) ∧
    (∀ (s : ContractState) (sender now value recipientScore threshold : Nat)
        (s1 : ContractState),
      analyzeTransaction s sender now value recipientScore threshold = .ok s1 →
      s1.lastSubmissionTime sender = now) := by
  refine ⟨?_, ?_, ?_⟩
  · intro s sender now value recipientScore threshold hprov hpaused hcool
    simp [analyzeTransaction, hprov, hpaused, hcool]
  · intro s sender now value recipientScore threshold hcool heq
    simp only [analyzeTransaction] at heq
    repeat' split at heq
    all_goals simp_all
  · intro s sender now value recipientScore threshold s1 h
    simp only [analyzeTransaction] at h
    repeat' split at h
    all_goals try exact Except.noConfusion h
    injection h with h1
    subst h1
    simp

/-- Witness for C9 at concrete inputs: on the post-submission state of
`c5_witness`'s scenario — provider 5 last submitted at time 100, cooldown
30 — a second call at time 110 (elapsed 10 < 30) fails with
`CooldownActive`, a call at time 130 is not rejected by the cooldown
check, and the successful first call itself set the timestamp to 100. -/
theorem c9_witness :
    (∀ s1, analyzeTransaction sampleOpenState 5 100 10 7 7 = .ok s1 →
      s1.lastSubmissionTime 5 = 100) ∧
    ((okOr (initState 1 2) (analyzeTransaction sampleOpenState 5 100 10 7 7)).isProvider 5 = true ∧
      (okOr (initState 1 2) (analyzeTransaction sampleOpenState 5 100 10 7 7)).paused = false ∧
      110 < (okOr (initState 1 2) (analyzeTransaction sampleOpenState 5 100 10 7 7)).lastSubmissionTime 5 +
        (okOr (initState 1 2) (analyzeTransaction sampleOpenState 5 100 10 7 7)).cooldownSeconds ∧
      analyzeTransaction (okOr (initState 1 2) (analyzeTransaction sampleOpenState 5 100 10 7 7))
        5 110 10 7 7 = .error Err.CooldownActive) ∧
    (¬ 130 < (okOr (initState 1 2) (analyzeTransaction sampleOpenState 5 100 10 7 7)).lastSubmissionTime 5 +
        (okOr (initState 1 2) (analyzeTransaction sampleOpenState 5 100 10 7 7)).cooldownSeconds ∧
      analyzeTransaction (okOr (initState 1 2) (analyzeTransaction sampleOpenState 5 100 10 7 7))
        5 130 10 7 7 ≠ .error Err.CooldownActive) :=
  ⟨fun s1 h => c9_cooldown_enforcement.2.2 sampleOpenState 5 100 10 7 7 s1 h,
   ⟨by decide, by decide, by decide,
    c9_cooldown_enforcement.1 (okOr (initState 1 2) (analyzeTransaction sampleOpenState 5 100 10 7 7))
      5 110 10 7 7 (by decide) (by decide) (by decide)⟩,
   ⟨by decide,
    c9_cooldown_enforcement.2.1 (okOr (initState 1 2) (analyzeTransaction sampleOpenState 5 100 10 7 7))
      5 130 10 7 7 (by decide)⟩⟩

/-- C10: the callback entry point has no `onlyOwner`/`onlyProvider`
modifier and no pause gate: for identical request handle, cleartext
payload, proof and verifier, its outcome is independent of `msg.sender`
and of the pause flag — the same error, or success performing the same
mutation (which never touches the pause flag or the caller). -/
theorem c10_callback_ignores_sender_and_pause
    (sigOk : Nat → List Nat → List Nat → Bool) (s : ContractState)
    (senderA senderB : Nat) (b : Bool) (requestId : Nat) (cleartexts proof : List Nat) :
    myCallback sigOk { s with paused := b } senderB requestId cleartexts proof =
      (myCallback sigOk s senderA requestId cleartexts proof).map
        (fun s1 => { s1 with paused := b }) := by
  by_cases hp : (s.decryptionContexts requestId).processed = true
  · simp [myCallback, hp, Except.map]
  · by_cases hb : (s.batches (s.decryptionContexts requestId).batchId).active = true
    · by_cases hh : hashCiphertexts
          [(s.batches (s.decryptionContexts requestId).batchId).encryptedTotalValue,
           (s.batches (s.decryptionContexts requestId).batchId).encryptedMaxValue,
           (s.batches (s.decryptionContexts requestId).batchId).encryptedMinValue,
           (s.batches (s.decryptionContexts requestId).batchId).encryptedSuspiciousCount]
          s.selfAddr = (s.decryptionContexts requestId).stateHash
      · by_cases hs : sigOk requestId cleartexts proof = true
        · simp [myCallback, hp, hb, hh, hs, Except.map]
        · simp [myCallback, hp, hb, hh, hs, Except.map]
      · simp [myCallback, hp, hb, hh, Except.map]
    · simp [myCallback, hp, hb, Except.map]
